import Mathlib

/-!
Shallow embedding of the scoring/classification core of the smart-content
repository: `src/modules/content-trend-analyzer.js`,
`src/modules/high-performance-predictor.js` and the channel-health scorer of
`src/modules/explorium-collector.js`.

Conventions of the embedding:
* JS numbers are modelled by `ℚ` (raw counters, coerced through
  `parseInt(x) || 0`, appear as `ℕ`).  Sites where IEEE-754 `NaN` can arise
  are modelled by `Option` (`none` = `NaN`) or by inlining the result of the
  `NaN`/`Infinity` comparison semantics; each such site carries a comment.
* `Math.round` is `jsRound` (half-up, i.e. toward `+∞`), `Math.log` is
  `Real.log`, `Array.prototype.sort` (stable in JS) is the stable insertion
  sort `sortDescBy`, and JS object keys in first-insertion order are ordered
  association lists built by `bumpCount` / `pushVal`.
* `String.prototype.includes` / `toLowerCase` are `jsIncludes` / `jsToLower`
  (ASCII-faithful; the analysed titles and keyword tables are ASCII).
* Timestamps (`Date` values) are integer milliseconds since the epoch;
  `getHours` and the locale weekday/month names are computed UTC-style from
  the instant (the ambient fixed timezone offset of the JS runtime is
  modelled as zero).  ISO-8601 rendered timestamps are represented by the
  instant itself (the rendering is an injective pure function of it).
-/

namespace SmartContent

/-- JS `Math.round` on a finite value: round half toward positive infinity. -/
def jsRound (q : ℚ) : ℤ := ⌊q + 1/2⌋

/-- Stable insertion step for a descending sort: `a` goes after every element
whose key is ≥ its own, matching JS stable `sort((a,b) => keyB - keyA)`. -/
def insertDescBy {α β : Type} [LinearOrder β] (key : α → β) (a : α) : List α → List α
  | [] => [a]
  | b :: bs => if key b < key a then a :: b :: bs else b :: insertDescBy key a bs

/-- Stable descending sort by key (JS `Array.prototype.sort` is stable). -/
def sortDescBy {α β : Type} [LinearOrder β] (key : α → β) (l : List α) : List α :=
  l.foldl (fun acc a => insertDescBy key a acc) []

/-- Ordered counting map: `m[k] = (m[k] || 0) + 1` with JS object keys kept in
first-insertion order. -/
def bumpCount {α : Type} [DecidableEq α] : List (α × ℕ) → α → List (α × ℕ)
  | [], k => [(k, 1)]
  | (k₀, n) :: rest, k =>
    if k₀ = k then (k₀, n + 1) :: rest else (k₀, n) :: bumpCount rest k

/-- Ordered multimap push: `(m[k] = m[k] || []).push(v)` with JS object keys
kept in first-insertion order. -/
def pushVal {α β : Type} [DecidableEq α] : List (α × List β) → α → β → List (α × List β)
  | [], k, v => [(k, [v])]
  | (k₀, vs) :: rest, k, v =>
    if k₀ = k then (k₀, vs ++ [v]) :: rest else (k₀, vs) :: pushVal rest k v

/-- Helper for `uniqueFirst` carrying the set of already-seen elements. -/
def uniqueFirstAux {α : Type} [DecidableEq α] (seen : List α) : List α → List α
  | [] => []
  | a :: as => if a ∈ seen then uniqueFirstAux seen as else a :: uniqueFirstAux (a :: seen) as

/-- JS `[...new Set(l)]`: deduplicate keeping first occurrences in order. -/
def uniqueFirst {α : Type} [DecidableEq α] (l : List α) : List α := uniqueFirstAux [] l

/-- Whether `needle` is an initial segment of `hay`. -/
def startsWithL : List Char → List Char → Bool
  | _, [] => true
  | [], _ :: _ => false
  | a :: as, b :: bs => a = b && startsWithL as bs

/-- Whether `needle` occurs contiguously inside `hay`. -/
def listHasSub : List Char → List Char → Bool
  | [], needle => needle.isEmpty
  | c :: t, needle => startsWithL (c :: t) needle || listHasSub t needle

/-- JS `s.includes(pat)`. -/
def jsIncludes (s pat : String) : Bool := listHasSub s.data pat.data

/-- JS `s.toLowerCase()` (codepoint-wise; the analysed strings are ASCII). -/
def jsToLower (s : String) : String := ⟨s.data.map Char.toLower⟩

/-- JS `new Date(ms).getHours()` for the fixed runtime timezone (offset 0):
hour of day in `0..23`, total over negative instants via flooring division. -/
def jsGetHours (ms : ℤ) : ℤ := (Int.fdiv ms 3600000) % 24

/-- Weekday names indexed as by `toLocaleDateString('en-US', {weekday})`. -/
def dayNames : List String :=
  ["Sunday", "Monday", "Tuesday", "Wednesday", "Thursday", "Friday", "Saturday"]

/-- Weekday of an epoch-millisecond instant (1970-01-01 was a Thursday). -/
def weekdayName (ms : ℤ) : String :=
  dayNames.getD ((Int.fdiv ms 86400000 + 4) % 7).toNat ""

/-- Month names indexed as by `toLocaleDateString('en-US', {month: 'long'})`. -/
def monthNames : List String :=
  ["January", "February", "March", "April", "May", "June", "July", "August",
   "September", "October", "November", "December"]

/-- Zero-based Gregorian month of an epoch-millisecond instant (civil-from-days
algorithm over flooring division). -/
def monthIndexOf (ms : ℤ) : ℕ :=
  let z := Int.fdiv ms 86400000 + 719468
  let era := Int.fdiv z 146097
  let doe := z - era * 146097
  let yoe := Int.fdiv (doe - Int.fdiv doe 1460 + Int.fdiv doe 36524 - Int.fdiv doe 146096) 365
  let doy := doe - (365 * yoe + Int.fdiv yoe 4 - Int.fdiv yoe 100)
  let mp := Int.fdiv (5 * doy + 2) 153
  ((if mp < 10 then mp + 3 else mp - 9) - 1).toNat

/-- Month name of an epoch-millisecond instant. -/
def monthName (ms : ℤ) : String := monthNames.getD (monthIndexOf ms) ""

/-- JS `a || b` over two optional strings (an empty string is falsy). -/
def jsOrStr (a b : Option String) : Option String :=
  match a with
  | some s => if s = "" then b else some s
  | none => b

/-- JS `array.join(', ')`. -/
def joinComma : List String → String
  | [] => ""
  | [a] => a
  | a :: rest => a ++ ", " ++ joinComma rest

namespace ContentTrendAnalyzer

/-- One input video record as read by `content-trend-analyzer.js`: numeric
counters are the values after `parseInt(x) || 0`, `publishedAt` is the parsed
`Date` in epoch milliseconds, `duration` is the parsed ISO-8601 `PT#H#M#S`
triple (`none` when the field is absent or unmatched by the regex), and
`id` / `videoId` / `tags` are optional exactly as accessed defensively. -/
structure Video where
  id : Option String
  videoId : Option String
  title : String
  publishedAt : ℤ
  duration : Option (ℕ × ℕ × ℕ)
  viewCount : ℕ
  likeCount : ℕ
  commentCount : ℕ
  tags : Option (List String)
  deriving DecidableEq

/-- Source `parseDuration` (lines 272-281): total seconds of the parsed
`PT#H#M#S` triple; an absent / unmatched duration yields 0. -/
def parseDuration : Option (ℕ × ℕ × ℕ) → ℕ
  | none => 0
  | some (h, m, s) => h * 3600 + m * 60 + s

/-- Derived age `(currentDate - publishDate) / (1000*60*60)` in hours as
computed in `analyzeVideoTrend` (line 55); it is NOT clamped at 0. -/
def hoursOldOf (v : Video) (now : ℤ) : ℚ := ((now - v.publishedAt : ℤ) : ℚ) / 3600000

/-- Source `calculateEngagementRate` (lines 505-512). -/
def calculateEngagementRate (v : Video) : ℚ :=
  if v.viewCount = 0 then 0
  else ((v.likeCount + v.commentCount : ℕ) : ℚ) / (v.viewCount : ℚ) * 100

/-- Source `calculatePerformanceScore` (lines 116-141): tiered weighted sum,
capped at 100. -/
def calculatePerformanceScore (viewVelocity engagementRate commentVelocity hoursOld : ℚ) : ℕ :=
  let s1 : ℕ :=
    if 1000 < viewVelocity then 40
    else if 500 < viewVelocity then 30
    else if 100 < viewVelocity then 20
    else if 50 < viewVelocity then 10
    else 0
  let s2 : ℕ :=
    if 5 < engagementRate then 35
    else if 3 < engagementRate then 25
    else if 2 < engagementRate then 15
    else if 1 < engagementRate then 10
    else 0
  let s3 : ℕ :=
    if 10 < commentVelocity then 15
    else if 5 < commentVelocity then 10
    else if 1 < commentVelocity then 5
    else 0
  let s4 : ℕ := if hoursOld < 24 then 10 else if hoursOld < 72 then 5 else 0
  min (s1 + s2 + s3 + s4) 100

/-- Source `projectSharePotential` (lines 252-260). -/
def projectSharePotential (engagementRate commentVelocity : ℚ) : String :=
  if 4 < engagementRate ∧ 8 < commentVelocity then "Very High"
  else if 3 < engagementRate ∧ 5 < commentVelocity then "High"
  else if 2 < engagementRate ∧ 2 < commentVelocity then "Medium"
  else "Low"

/-- Source `assessRetentionSignal` (lines 262-270). -/
def assessRetentionSignal (v : Video) (engagementRate : ℚ) : String :=
  let duration := parseDuration v.duration
  if 600 < duration ∧ 2 < engagementRate then "High"
  else if duration < 300 ∧ 3 < engagementRate then "High"
  else if (3/2 : ℚ) < engagementRate then "Medium"
  else "Low"

/-- Normalized per-item metrics, the return object of `calculateTrendMetrics`
(lines 105-113), with `rawMetrics` flattened into the `raw*` fields. -/
structure TrendMetrics where
  viewVelocity : ℚ
  engagementRate : ℚ
  commentVelocity : ℚ
  shareProjection : String
  retentionSignal : String
  performanceScore : ℕ
  rawViews : ℕ
  rawLikes : ℕ
  rawComments : ℕ
  rawHoursOld : ℚ
  deriving DecidableEq

/-- Source `calculateTrendMetrics` (lines 86-114): velocities are guarded by
`hoursOld > 0` and the engagement rate by `views > 0`, so no division by zero
(hence no `NaN`/`Infinity`) can occur. -/
def calculateTrendMetrics (v : Video) (hoursOld : ℚ) : TrendMetrics :=
  let views := v.viewCount
  let likes := v.likeCount
  let comments := v.commentCount
  let viewVelocity : ℚ := if 0 < hoursOld then (views : ℚ) / hoursOld else 0
  let commentVelocity : ℚ := if 0 < hoursOld then (comments : ℚ) / hoursOld else 0
  let engagementRate : ℚ := if 0 < views then ((likes + comments : ℕ) : ℚ) / (views : ℚ) * 100 else 0
  { viewVelocity := viewVelocity
    engagementRate := engagementRate
    commentVelocity := commentVelocity
    shareProjection := projectSharePotential engagementRate commentVelocity
    retentionSignal := assessRetentionSignal v engagementRate
    performanceScore := calculatePerformanceScore viewVelocity engagementRate commentVelocity hoursOld
    rawViews := views
    rawLikes := likes
    rawComments := comments
    rawHoursOld := hoursOld }

/-- Source `determineTrendStatus` (lines 143-153): first matching tier wins. -/
def determineTrendStatus (m : TrendMetrics) : String :=
  if 80 ≤ m.performanceScore ∧ 1000 < m.viewVelocity ∧ 4 < m.engagementRate then "viral"
  else if 60 ≤ m.performanceScore ∧ 300 < m.viewVelocity ∧ (5/2 : ℚ) < m.engagementRate then "trending"
  else if 40 ≤ m.performanceScore ∧ 100 < m.viewVelocity ∧ (3/2 : ℚ) < m.engagementRate then "rising"
  else if 25 ≤ m.performanceScore then "stable"
  else "declining"

/-- Ordered tier index of a classification on the scale
declining < stable < rising < trending < viral. -/
def statusRank : String → ℕ
  | "stable" => 1
  | "rising" => 2
  | "trending" => 3
  | "viral" => 4
  | _ => 0

/-- One qualitative trending factor (source objects pushed by
`identifyVideoTrendReasons`). -/
structure TrendReason where
  factor : String
  impact : String
  description : String
  deriving DecidableEq

/-- Source `identifyTrendingTags` keyword dictionary (lines 237-243). -/
def trendingKeywords : List String :=
  ["ai", "artificial intelligence", "machine learning", "chatgpt", "gemini",
   "coding", "programming", "development", "tutorial", "guide",
   "javascript", "python", "react", "nodejs", "web development",
   "productivity", "tips", "tricks", "best practices",
   "google", "microsoft", "apple", "tech", "innovation"]

/-- Source `identifyTrendingTags` (lines 236-250). -/
def identifyTrendingTags (tags : List String) : List String :=
  tags.filter (fun tag => trendingKeywords.any (fun k => jsIncludes (jsToLower tag) k))

/-- Source `identifyVideoTrendReasons` (lines 155-234): independent rules
appending reasons in source order. -/
def identifyVideoTrendReasons (v : Video) (m : TrendMetrics) : List TrendReason :=
  let title := jsToLower v.title
  (if jsIncludes title "ai" || jsIncludes title "artificial intelligence" then
    [⟨"AI/Technology Trend", "High", "Content aligns with current AI technology interest"⟩]
   else [])
  ++ (if jsIncludes title "tutorial" || jsIncludes title "how to" then
    [⟨"Educational Content Demand", "Medium", "Tutorial content consistently performs well"⟩]
   else [])
  ++ (if jsIncludes title "new" || jsIncludes title "latest" ||
         jsIncludes title "2024" || jsIncludes title "2025" then
    [⟨"Timeliness/Novelty", "Medium", "Current and timely content attracts more attention"⟩]
   else [])
  ++ (if 3 < m.engagementRate then
    [⟨"High Audience Engagement", "High",
      "Strong like-to-view and comment-to-view ratios indicate resonant content"⟩]
   else [])
  ++ (if 500 < m.viewVelocity then
    [⟨"Strong Initial Momentum", "High",
      "Rapid view accumulation suggests algorithmic promotion and audience interest"⟩]
   else [])
  ++ (if 5 < m.commentVelocity then
    [⟨"Active Discussion Generation", "Medium",
      "High comment velocity indicates content sparking conversation"⟩]
   else [])
  ++ (match v.tags with
      | some tags =>
        let tr := identifyTrendingTags tags
        if tr.isEmpty then []
        else [⟨"Trending Keywords/Tags", "Medium", "Uses trending keywords: " ++ joinComma tr⟩]
      | none => [])
  ++ (if 14 ≤ jsGetHours v.publishedAt ∧ jsGetHours v.publishedAt ≤ 16 then
    [⟨"Optimal Publishing Time", "Low", "Published during peak audience activity hours"⟩]
   else [])

/-- Peak forecast object returned by `projectPeakPerformance` (lines 298-302). -/
structure PeakProjection where
  estimatedPeakViews : ℤ
  estimatedPeakTimeHours : ℤ
  confidence : ℕ
  deriving DecidableEq

/-- Multiplier chosen in `projectPeakPerformance` (lines 288-293); the initial
value 1 is always overwritten, the `else` branch yields 1.2. -/
def projectionMultiplier (score : ℕ) : ℚ :=
  if 80 < score then 5 else if 60 < score then 3 else if 40 < score then 2 else 1.2

/-- Source `calculateProjectionConfidence` (lines 305-314): base 50 plus
bonuses, capped at 95. -/
def calculateProjectionConfidence (m : TrendMetrics) (hoursOld : ℚ) : ℕ :=
  min (50 + (if 48 < hoursOld then 30 else 0) + (if 2 < m.engagementRate then 20 else 0)
        + (if 100 < m.viewVelocity then 20 else 0) + (if 1 < m.commentVelocity then 10 else 0))
    95

/-- Source `projectPeakPerformance` (lines 283-303); `Math.log` is `Real.log`,
`Math.round` of the resulting finite value is floor of the value plus 1/2. -/
noncomputable def projectPeakPerformance (m : TrendMetrics) (hoursOld : ℚ) : PeakProjection :=
  let mult := projectionMultiplier m.performanceScore
  { estimatedPeakViews := jsRound ((m.rawViews : ℚ) * mult)
    estimatedPeakTimeHours := ⌊(hoursOld : ℝ) + 24 * Real.log (mult : ℝ) + 1/2⌋
    confidence := calculateProjectionConfidence m hoursOld }

/-- Source `generateTrendActions` switch arms (lines 319-352). -/
def statusActions (status : String) : List String :=
  if status = "viral" then
    ["🚀 Capitalize on momentum with follow-up content",
     "📈 Create content series around this topic",
     "💬 Actively engage with comments to maintain discussion",
     "🔄 Cross-promote on other platforms immediately"]
  else if status = "trending" then
    ["⚡ Boost promotion with additional marketing",
     "🎯 Create similar content while trend is hot",
     "📊 Monitor metrics closely for optimization opportunities",
     "🤝 Reach out to collaborators while content is trending"]
  else if status = "rising" then
    ["📢 Increase promotion to boost momentum",
     "🏷️ Optimize tags and description for better discovery",
     "💡 Analyze successful elements for future content",
     "⏰ Consider optimal timing for similar content"]
  else if status = "stable" then
    ["🔧 Optimize title and thumbnail for better performance",
     "📝 Update description with trending keywords",
     "🎯 Target specific audience segments"]
  else if status = "declining" then
    ["🚨 Analyze what went wrong for learning",
     "🔄 Consider content refresh or update",
     "📊 Review audience retention analytics"]
  else []

/-- Source `generateTrendActions` (lines 316-368): switch arm plus per-reason
extras, truncated to the first 5. -/
def generateTrendActions (status : String) (reasons : List TrendReason) : List String :=
  (statusActions status
    ++ reasons.flatMap (fun r =>
      (if r.factor = "AI/Technology Trend" then
        ["🤖 Create more AI-related content while trend is hot"] else [])
      ++ (if r.factor = "Educational Content Demand" then
        ["📚 Develop comprehensive tutorial series"] else [])
      ++ (if r.factor = "High Audience Engagement" then
        ["💭 Create Q&A or discussion-based follow-up content"] else []))).take 5

/-- Metrics sub-object of the full per-video result (lines 73-79). -/
structure MetricsOut where
  viewVelocity : ℚ
  engagementRate : ℚ
  commentVelocity : ℚ
  shareProjection : String
  retentionSignal : String
  deriving DecidableEq

/-- Full per-video trend object returned by `analyzeVideoTrend` (lines 66-83);
`hoursOld` is the `Math.round`ed age. -/
structure FullTrend where
  videoId : Option String
  title : String
  publishedAt : ℤ
  hoursOld : ℤ
  status : String
  performanceScore : ℕ
  metrics : MetricsOut
  trendReasons : List TrendReason
  projectedPeak : PeakProjection
  recommendedActions : List String
  deriving DecidableEq

/-- Reduced object returned by `getVideoTrendBaseline` (lines 740-749); its
`projectedPeak` is `null` and it carries no metrics. -/
structure BaselineTrend where
  videoId : Option String
  title : String
  status : String
  performanceScore : ℕ
  trendReasons : List TrendReason
  deriving DecidableEq

/-- A per-video analysis result: either the full object or the baseline shape
for videos older than the timeframe. -/
inductive VideoTrendResult where
  | full : FullTrend → VideoTrendResult
  | baseline : BaselineTrend → VideoTrendResult
  deriving DecidableEq

namespace VideoTrendResult

/-- The `status` field common to both result shapes. -/
def status : VideoTrendResult → String
  | .full t => t.status
  | .baseline t => t.status

/-- The `performanceScore` field common to both result shapes. -/
def performanceScore : VideoTrendResult → ℕ
  | .full t => t.performanceScore
  | .baseline t => t.performanceScore

/-- The `title` field common to both result shapes. -/
def title : VideoTrendResult → String
  | .full t => t.title
  | .baseline t => t.title

/-- The `trendReasons` field common to both result shapes. -/
def trendReasons : VideoTrendResult → List TrendReason
  | .full t => t.trendReasons
  | .baseline t => t.trendReasons

end VideoTrendResult

/-- Source `getVideoTrendBaseline` (lines 740-749). -/
def getVideoTrendBaseline (v : Video) (status : String) : BaselineTrend :=
  { videoId := jsOrStr v.id v.videoId
    title := v.title
    status := status
    performanceScore := 50
    trendReasons := [] }

/-- Source `analyzeVideoTrend` (lines 52-84): videos older than the timeframe
get the stable baseline; otherwise the raw (possibly negative) `hoursOld` is
passed unchanged to the normalizer, classifier and peak projector. -/
noncomputable def analyzeVideoTrend (v : Video) (timeframeHours : ℚ) (now : ℤ) : VideoTrendResult :=
  let hoursOld := hoursOldOf v now
  if timeframeHours < hoursOld then .baseline (getVideoTrendBaseline v "stable")
  else
    let m := calculateTrendMetrics v hoursOld
    let st := determineTrendStatus m
    let reasons := identifyVideoTrendReasons v m
    .full
      { videoId := jsOrStr v.id v.videoId
        title := v.title
        publishedAt := v.publishedAt
        hoursOld := jsRound hoursOld
        status := st
        performanceScore := m.performanceScore
        metrics :=
          { viewVelocity := m.viewVelocity
            engagementRate := m.engagementRate
            commentVelocity := m.commentVelocity
            shareProjection := m.shareProjection
            retentionSignal := m.retentionSignal }
        trendReasons := reasons
        projectedPeak := projectPeakPerformance m hoursOld
        recommendedActions := generateTrendActions st reasons }

/-- Entry of the aggregator's top-reason table. -/
structure ReasonFreq where
  reason : String
  frequency : ℕ
  deriving DecidableEq

/-- Entry of the aggregator's trending-topic table. -/
structure TopicFreq where
  topic : String
  frequency : ℕ
  deriving DecidableEq

/-- One market insight object (lines 429-449). -/
structure MarketInsight where
  insight : String
  action : String
  opportunity : String
  deriving DecidableEq

/-- Return object of `identifyTrendingReasons` (lines 396-401). -/
structure TrendingReasons where
  topReasons : List ReasonFreq
  trendingTopics : List TopicFreq
  overallPattern : String
  marketInsights : List MarketInsight
  deriving DecidableEq

/-- Source `identifyOverallPattern` (lines 404-423): keyed off the single most
frequent reason (case-sensitive `includes`). -/
def identifyOverallPattern (topReasons : List ReasonFreq) : String :=
  match topReasons with
  | [] => "Insufficient data for pattern analysis"
  | d :: _ =>
    if jsIncludes d.reason "AI" || jsIncludes d.reason "Technology" then
      "Strong technology trend driving content performance"
    else if jsIncludes d.reason "Educational" || jsIncludes d.reason "Tutorial" then
      "Educational content outperforming entertainment"
    else if jsIncludes d.reason "Engagement" then
      "Audience interaction quality over quantity trend"
    else if jsIncludes d.reason "Timing" || jsIncludes d.reason "Momentum" then
      "Strategic timing and momentum-based success pattern"
    else "Mixed success factors - diversified content strategy working"

/-- Source `generateMarketInsights` (lines 425-453): three independent `find`
checks appending fixed insight objects. -/
def generateMarketInsights (topReasons : List ReasonFreq) (trendingTopics : List TopicFreq) :
    List MarketInsight :=
  (if trendingTopics.any (fun t => t.topic == "AI/Tech") then
    [⟨"AI and technology content experiencing significant growth",
      "Increase technology-focused content production",
      "High audience demand for AI tutorials and insights"⟩]
   else [])
  ++ (if topReasons.any (fun r => jsIncludes r.reason "Educational") then
    [⟨"Educational content consistently outperforming entertainment",
      "Focus on tutorial and how-to content formats",
      "Untapped demand for comprehensive learning content"⟩]
   else [])
  ++ (if topReasons.any (fun r => jsIncludes r.reason "Engagement") then
    [⟨"Audience prioritizing interactive and discussion-worthy content",
      "Create more discussion-generating and community-focused content",
      "Build stronger community through engagement-first strategy"⟩]
   else [])

/-- Source `identifyTrendingReasons` (lines 370-402): ordered frequency maps
over reasons and title topics, stably sorted descending and truncated. -/
def identifyTrendingReasons (risingContent : List VideoTrendResult) : TrendingReasons :=
  let reasonFrequency := risingContent.foldl
    (fun acc c => c.trendReasons.foldl (fun a r => bumpCount a r.factor) acc) []
  let topicTrends := risingContent.foldl
    (fun acc c =>
      let title := jsToLower c.title
      let acc := if jsIncludes title "ai" then bumpCount acc "AI/Tech" else acc
      let acc := if jsIncludes title "tutorial" then bumpCount acc "Educational" else acc
      if jsIncludes title "tips" then bumpCount acc "Tips/Advice" else acc) []
  let topReasons := ((sortDescBy Prod.snd reasonFrequency).take 5).map
    (fun p => ReasonFreq.mk p.1 p.2)
  let trendingTopics := ((sortDescBy Prod.snd topicTrends).take 3).map
    (fun p => TopicFreq.mk p.1 p.2)
  { topReasons := topReasons
    trendingTopics := trendingTopics
    overallPattern := identifyOverallPattern topReasons
    marketInsights := generateMarketInsights topReasons trendingTopics }

/-- Hour bucket of `analyzeTimePatterns` (lines 484-491). -/
structure HourPerf where
  hour : ℤ
  avgEngagement : ℚ
  sampleSize : ℕ
  deriving DecidableEq

/-- Day bucket of `analyzeTimePatterns` (lines 493-500). -/
structure DayPerf where
  day : String
  avgEngagement : ℚ
  sampleSize : ℕ
  deriving DecidableEq

/-- Return object of `analyzeTimePatterns`. -/
structure TimePatterns where
  bestHours : List HourPerf
  bestDays : List DayPerf
  deriving DecidableEq

/-- Source `analyzeTimePatterns` (lines 466-503). -/
def analyzeTimePatterns (videos : List Video) : TimePatterns :=
  let hourly := videos.foldl
    (fun acc v => pushVal acc (jsGetHours v.publishedAt) (calculateEngagementRate v)) []
  let daily := videos.foldl
    (fun acc v => pushVal acc (weekdayName v.publishedAt) (calculateEngagementRate v)) []
  let bestHours := ((sortDescBy HourPerf.avgEngagement
    (hourly.map (fun p => HourPerf.mk p.1 (p.2.sum / (p.2.length : ℚ)) p.2.length))).take 3)
  let bestDays := ((sortDescBy DayPerf.avgEngagement
    (daily.map (fun p => DayPerf.mk p.1 (p.2.sum / (p.2.length : ℚ)) p.2.length))).take 3)
  { bestHours := bestHours, bestDays := bestDays }

/-- Keyword bucket of `analyzeContentPatterns` (lines 537-545). -/
structure KeywordPerf where
  keyword : String
  avgEngagement : ℚ
  frequency : ℕ
  deriving DecidableEq

/-- Length bucket of `analyzeContentPatterns` (lines 548-554). -/
structure LengthPerf where
  length : String
  avgEngagement : ℚ
  sampleSize : ℕ
  deriving DecidableEq

/-- Return object of `analyzeContentPatterns`. -/
structure ContentPatterns where
  topKeywords : List KeywordPerf
  lengthAnalysis : List LengthPerf
  deriving DecidableEq

/-- Source `analyzeContentPatterns` (lines 514-557): word histogram over
lowercased title tokens of length > 3 and duration-bucket performance. -/
def analyzeContentPatterns (videos : List Video) : ContentPatterns :=
  let step := fun (acc : List (String × List ℚ) × (List ℚ × List ℚ × List ℚ)) (v : Video) =>
    let words := ((jsToLower v.title).splitOn " ").filter (fun w => 3 < w.length)
    let e := calculateEngagementRate v
    let d := parseDuration v.duration
    let kw := words.foldl (fun a w => pushVal a w e) acc.1
    let (s, m, l) := acc.2
    if d < 300 then (kw, (s ++ [e], m, l))
    else if d < 900 then (kw, (s, m ++ [e], l))
    else (kw, (s, m, l ++ [e]))
  let res := videos.foldl step ([], ([], [], []))
  let titleKeywords := res.1
  let (short, medium, long) := res.2
  let topKeywords := ((sortDescBy KeywordPerf.avgEngagement
    ((titleKeywords.filter (fun p => 2 ≤ p.2.length)).map
      (fun p => KeywordPerf.mk p.1 (p.2.sum / (p.2.length : ℚ)) p.2.length))).take 10)
  let mkLen := fun (name : String) (es : List ℚ) =>
    LengthPerf.mk name (if 0 < es.length then es.sum / (es.length : ℚ) else 0) es.length
  let lengthAnalysis := sortDescBy LengthPerf.avgEngagement
    [mkLen "short" short, mkLen "medium" medium, mkLen "long" long]
  { topKeywords := topKeywords, lengthAnalysis := lengthAnalysis }

/-- Distribution counts of `analyzeEngagementPatterns` (lines 569-574). -/
structure EngagementDistribution where
  high : ℕ
  medium : ℕ
  low : ℕ
  deriving DecidableEq

/-- High-performer entry of `analyzeEngagementPatterns` (lines 575-578). -/
structure HighPerformer where
  title : String
  engagement : ℚ
  deriving DecidableEq

/-- Return object of `analyzeEngagementPatterns`. -/
structure EngagementPatterns where
  distribution : EngagementDistribution
  highPerformers : List HighPerformer
  deriving DecidableEq

/-- Source `analyzeEngagementPatterns` (lines 559-580). -/
def analyzeEngagementPatterns (videos : List Video) : EngagementPatterns :=
  let high := videos.filter (fun v => decide (3 < calculateEngagementRate v))
  let medium := videos.filter (fun v =>
    decide ((3/2 : ℚ) ≤ calculateEngagementRate v ∧ calculateEngagementRate v ≤ 3))
  let low := videos.filter (fun v => decide (calculateEngagementRate v < (3/2 : ℚ)))
  { distribution := ⟨high.length, medium.length, low.length⟩
    highPerformers := (high.take 5).map (fun v => ⟨v.title, calculateEngagementRate v⟩) }

/-- Month bucket of `analyzeSeasonalPatterns` (lines 594-600). -/
structure MonthPerf where
  month : String
  avgEngagement : ℚ
  sampleSize : ℕ
  deriving DecidableEq

/-- Source `analyzeSeasonalPatterns` (lines 582-603). -/
def analyzeSeasonalPatterns (videos : List Video) : List MonthPerf :=
  let monthly := videos.foldl
    (fun acc v => pushVal acc (monthName v.publishedAt) (calculateEngagementRate v)) []
  sortDescBy MonthPerf.avgEngagement
    (monthly.map (fun p => MonthPerf.mk p.1 (p.2.sum / (p.2.length : ℚ)) p.2.length))

/-- Return object of `analyzePerformancePatterns` (lines 455-464). -/
structure PerformancePatterns where
  timePatterns : TimePatterns
  contentPatterns : ContentPatterns
  engagementPatterns : EngagementPatterns
  seasonalPatterns : List MonthPerf
  deriving DecidableEq

/-- Source `analyzePerformancePatterns` (lines 455-464). -/
def analyzePerformancePatterns (videos : List Video) : PerformancePatterns :=
  { timePatterns := analyzeTimePatterns videos
    contentPatterns := analyzeContentPatterns videos
    engagementPatterns := analyzeEngagementPatterns videos
    seasonalPatterns := analyzeSeasonalPatterns videos }

/-- One content-opportunity object (lines 629-646). -/
structure Opportunity where
  type : String
  potential : String
  reason : String
  suggestedTopics : List String
  priority : String
  deriving DecidableEq

/-- Theme hit counters built by the reduce of `identifyContentOpportunities`
(lines 609-624).  The JS accumulator is an object whose four possible keys
appear in first-hit order; only the per-theme counts are observable in the
output (membership and length of the opportunity list do not depend on that
order), so the counters are modelled positionally. -/
structure ThemeCounts where
  ai : ℕ
  tutorial : ℕ
  tips : ℕ
  review : ℕ
  deriving DecidableEq

/-- The reduce of `identifyContentOpportunities` (lines 609-624). -/
def successfulThemes (risingContent : List VideoTrendResult) : ThemeCounts :=
  risingContent.foldl
    (fun t c =>
      let title := jsToLower c.title
      let t := if jsIncludes title "ai" || jsIncludes title "artificial intelligence" then
        { t with ai := t.ai + 1 } else t
      let t := if jsIncludes title "tutorial" || jsIncludes title "how to" then
        { t with tutorial := t.tutorial + 1 } else t
      let t := if jsIncludes title "tips" || jsIncludes title "tricks" then
        { t with tips := t.tips + 1 } else t
      if jsIncludes title "review" || jsIncludes title "analysis" then
        { t with review := t.review + 1 } else t)
    ⟨0, 0, 0, 0⟩

/-- Source `generateTopicSuggestions` (lines 651-660). -/
def generateTopicSuggestions (theme : String) : List String :=
  if theme = "ai" then
    ["AI Tools for Content Creation", "ChatGPT vs Gemini Comparison", "AI Coding Assistants Review"]
  else if theme = "tutorial" then
    ["Step-by-Step Guide to...", "Complete Beginner Tutorial", "Advanced Techniques Masterclass"]
  else if theme = "tips" then
    ["10 Pro Tips for...", "Hidden Features You Should Know", "Productivity Hacks That Work"]
  else if theme = "review" then
    ["Honest Review of...", "Before You Buy: Analysis", "Comparing Top Solutions"]
  else ["Create engaging content in this category"]

/-- Per-theme opportunity object (lines 629-636); `typeName` is the
capitalized theme plus " Content". -/
def themeOpportunity (typeName : String) (theme : String) (frequency : ℕ) : Opportunity :=
  { type := typeName
    potential := "High"
    reason := Nat.repr frequency ++ " rising videos in this category"
    suggestedTopics := generateTopicSuggestions theme
    priority := if 3 < frequency then "Immediate" else "High" }

/-- The fixed timing-based opportunity appended unconditionally
(lines 640-646). -/
def trendingTopicIntegration : Opportunity :=
  { type := "Trending Topic Integration"
    potential := "High"
    reason := "Current market trends favor technology and AI content"
    suggestedTopics := ["AI Tools for Creators", "Latest Tech Trends", "Productivity Automation"]
    priority := "Immediate" }

/-- The per-theme opportunities generated by the `Object.entries` loop of
`identifyContentOpportunities` (lines 627-637): one entry per theme whose hit
count is ≥ 2. -/
def themeOpportunityList (t : ThemeCounts) : List Opportunity :=
  (if 2 ≤ t.ai then [themeOpportunity "Ai Content" "ai" t.ai] else [])
  ++ (if 2 ≤ t.tutorial then [themeOpportunity "Tutorial Content" "tutorial" t.tutorial] else [])
  ++ (if 2 ≤ t.tips then [themeOpportunity "Tips Content" "tips" t.tips] else [])
  ++ (if 2 ≤ t.review then [themeOpportunity "Review Content" "review" t.review] else [])

/-- Source `identifyContentOpportunities` (lines 605-649): one opportunity per
theme with count ≥ 2, then the fixed trending-topic opportunity, then
`slice(0, 5)`. -/
def identifyContentOpportunities (risingContent : List VideoTrendResult) : List Opportunity :=
  (themeOpportunityList (successfulThemes risingContent) ++ [trendingTopicIntegration]).take 5

/-- One viral candidate object (lines 664-673). -/
structure ViralCandidate where
  videoId : Option String
  title : String
  viralScore : ℕ
  viralFactors : List String
  recommendation : String
  deriving DecidableEq

/-- Source `calculateViralScore` (lines 681-705). -/
def calculateViralScore (m : TrendMetrics) : ℕ :=
  let s1 : ℕ :=
    if 1000 < m.viewVelocity then 40
    else if 500 < m.viewVelocity then 25
    else if 200 < m.viewVelocity then 15
    else 0
  let s2 : ℕ :=
    if 5 < m.engagementRate then 30
    else if 3 < m.engagementRate then 20
    else if 2 < m.engagementRate then 10
    else 0
  let s3 : ℕ :=
    if 20 < m.commentVelocity then 20
    else if 10 < m.commentVelocity then 15
    else if 5 < m.commentVelocity then 10
    else 0
  let s4 : ℕ :=
    if m.shareProjection = "Very High" then 10
    else if m.shareProjection = "High" then 7
    else if m.shareProjection = "Medium" then 4
    else 0
  min (s1 + s2 + s3 + s4) 100

/-- Source `identifyViralFactors` (lines 707-729). -/
def identifyViralFactors (v : Video) (m : TrendMetrics) : List String :=
  let title := jsToLower v.title
  (if 500 < m.viewVelocity then ["Exceptional view velocity"] else [])
  ++ (if 3 < m.engagementRate then ["High audience engagement"] else [])
  ++ (if 10 < m.commentVelocity then ["Strong discussion generation"] else [])
  ++ (if jsIncludes title "shocking" || jsIncludes title "incredible" ||
         jsIncludes title "amazing" then ["Attention-grabbing language"] else [])
  ++ (if jsIncludes title "new" || jsIncludes title "breaking" ||
         jsIncludes title "exclusive" then ["Novelty and exclusivity"] else [])

/-- Source `getViralRecommendation` (lines 731-738). -/
def getViralRecommendation (m : TrendMetrics) : String :=
  let score := calculateViralScore m
  if 70 < score then "High viral potential - boost promotion immediately"
  else if 50 < score then "Good viral potential - increase marketing efforts"
  else if 30 < score then "Moderate potential - optimize and monitor closely"
  else "Low viral potential - focus on steady growth"

/-- Source `assessViralPotential` (lines 662-679): metrics over a fixed
24-hour window, filtered to score > 30, sorted descending, top 5. -/
def assessViralPotential (videos : List Video) : List ViralCandidate :=
  let candidates := videos.map (fun v =>
    let m := calculateTrendMetrics v 24
    ViralCandidate.mk (jsOrStr v.id v.videoId) v.title (calculateViralScore m)
      (identifyViralFactors v m) (getViralRecommendation m))
  ((sortDescBy ViralCandidate.viralScore
    (candidates.filter (fun c => decide (30 < c.viralScore)))).take 5)

/-- Rising-content entry of the mock fallback analysis (lines 753-764). -/
structure MockRising where
  videoId : String
  title : String
  status : String
  performanceScore : ℕ
  trendReasons : List TrendReason
  deriving DecidableEq

/-- Reduced trending-reasons object of the mock analysis (lines 765-771). -/
structure MockReasonSummary where
  topReasons : List ReasonFreq
  overallPattern : String
  deriving DecidableEq

/-- Opportunity entry of the mock analysis (lines 772-779). -/
structure MockOpportunity where
  type : String
  potential : String
  reason : String
  priority : String
  deriving DecidableEq

/-- The mock analysis object (lines 751-782); its `timestamp` is the clock
reading at the time of the call. -/
structure MockAnalysis where
  risingContent : List MockRising
  trendingReasons : MockReasonSummary
  contentOpportunities : List MockOpportunity
  timestamp : ℤ
  deriving DecidableEq

/-- Source `getMockTrendAnalysis` (lines 751-782): fixed literal data. -/
def getMockTrendAnalysis (now : ℤ) : MockAnalysis :=
  { risingContent :=
      [{ videoId := "mock_rising_1"
         title := "AI Coding Tutorial - Revolutionary Approach"
         status := "trending"
         performanceScore := 78
         trendReasons :=
           [⟨"AI/Technology Trend", "High", "Aligns with current AI interest"⟩,
            ⟨"Educational Content Demand", "Medium", "Tutorial format performs well"⟩] }]
    trendingReasons :=
      { topReasons := [⟨"AI/Technology Trend", 3⟩, ⟨"Educational Content Demand", 2⟩]
        overallPattern := "Strong technology trend driving content performance" }
    contentOpportunities :=
      [⟨"AI Content", "High", "Multiple rising videos in AI category", "Immediate"⟩]
    timestamp := now }

/-- The normal-path analysis object assembled by `analyzeContentTrends`
(lines 17-44). -/
structure NormalAnalysis where
  risingContent : List VideoTrendResult
  trendingReasons : TrendingReasons
  performancePatterns : PerformancePatterns
  contentOpportunities : List Opportunity
  viralPotential : List ViralCandidate
  timestamp : ℤ
  deriving DecidableEq

/-- The two possible result shapes of `analyzeContentTrends`: the normal
analysis, or the mock fallback produced by the `catch` arm. -/
inductive TrendAnalysis where
  | normal : NormalAnalysis → TrendAnalysis
  | mock : MockAnalysis → TrendAnalysis
  deriving DecidableEq

/-- Source `analyzeContentTrends` (lines 13-50); `videos = none` models a
non-array argument, on which the `for...of` iteration throws a `TypeError`
that the surrounding `try`/`catch` converts into the mock analysis.  `now`
is the frozen wall clock read by every `new Date()` in the call. -/
noncomputable def analyzeContentTrends (videos : Option (List Video)) (timeframeHours : ℚ)
    (now : ℤ) : TrendAnalysis :=
  match videos with
  | none => .mock (getMockTrendAnalysis now)
  | some vs =>
    let trends := vs.map (fun v => analyzeVideoTrend v timeframeHours now)
    let rising := trends.filter (fun t =>
      t.status == "rising" || t.status == "trending" || t.status == "viral")
    let rising := sortDescBy VideoTrendResult.performanceScore rising
    .normal
      { risingContent := rising
        trendingReasons := identifyTrendingReasons rising
        performancePatterns := analyzePerformancePatterns vs
        contentOpportunities := identifyContentOpportunities rising
        viralPotential := assessViralPotential vs
        timestamp := now }

end ContentTrendAnalyzer

namespace HighPerformancePredictor

/-- One input video record as read by `high-performance-predictor.js`:
`viewCount` is the numeric view counter (0 when absent, which JS treats as
falsy in the top-performer filter), `likeToViewRatio` the engagement field
read by the averaging code. -/
structure PVideo where
  title : String
  viewCount : ℕ
  likeToViewRatio : ℚ
  publishedAt : ℤ
  deriving DecidableEq

/-- Channel aggregate counters as read by the predictor. -/
structure ChannelStats where
  viewCount : ℕ
  videoCount : ℕ
  subscriberCount : ℤ
  deriving DecidableEq

/-- Source `estimateChannelStats` (lines 560-570): called only with a
non-empty batch. -/
def estimateChannelStats (videos : List PVideo) : ChannelStats :=
  let totalViews := (videos.map PVideo.viewCount).sum
  { viewCount := totalViews
    videoCount := videos.length
    subscriberCount := jsRound ((totalViews : ℚ) / (videos.length : ℚ) * 0.02) }

/-- Title-pattern summary returned by `extractTitlePatterns` (lines 127-132). -/
structure TitlePatterns where
  topWords : List (String × ℕ)
  winningPhrases : List String
  emotionalTriggers : List String
  deriving DecidableEq

/-- Source `extractTitlePatterns` (lines 87-132): word histogram over
whitespace-split lowercase tokens of length > 3, plus deduplicated winning
phrases and emotional triggers in first-hit order. -/
def extractTitlePatterns (videos : List PVideo) : TitlePatterns :=
  let step := fun (acc : List (String × ℕ) × List String × List String) (v : PVideo) =>
    let title := jsToLower v.title
    let words := ((title.split Char.isWhitespace).filter (fun w => 3 < w.length))
    let tw := words.foldl bumpCount acc.1
    let wp := acc.2.1
      ++ (if jsIncludes title "actually" then ["ACTUALLY"] else [])
      ++ (if jsIncludes title "insane" then ["INSANE"] else [])
      ++ (if jsIncludes title "ultimate" then ["Ultimate"] else [])
      ++ (if jsIncludes title "complete" then ["Complete"] else [])
      ++ (if jsIncludes title "3 ways" then ["3 Ways to"] else [])
      ++ (if jsIncludes title "how i" then ["How I"] else [])
    let et := acc.2.2
      ++ (if jsIncludes title "!" then ["Exclamation"] else [])
      ++ (if jsIncludes title "..." then ["Ellipsis Curiosity"] else [])
      ++ (if jsIncludes title "why" then ["Why Questions"] else [])
    (tw, wp, et)
  let res := videos.foldl step ([], [], [])
  { topWords := (sortDescBy Prod.snd res.1).take 10
    winningPhrases := uniqueFirst res.2.1
    emotionalTriggers := uniqueFirst res.2.2 }

/-- One topic cluster of `identifyTopicClusters` (lines 137-186).  For an
empty cluster the JS object keeps only `videos` and `confidence = 0`; its
unset `avgViews` / `avgEngagement` / `videoCount` fields are modelled as 0
(they are read only downstream of a `confidence > 80` check, which forces a
non-empty cluster).  `avgEngagement` is the raw mean of `likeToViewRatio`;
the rendered percentage string is a pure function of it. -/
structure Cluster where
  name : String
  videoCount : ℕ
  avgViews : ℤ
  avgEngagement : ℚ
  confidence : ℚ
  deriving DecidableEq

/-- Builds one cluster from its filtered member list (lines 172-184). -/
def mkCluster (name : String) (members : List PVideo) : Cluster :=
  if members.length = 0 then ⟨name, 0, 0, 0, 0⟩
  else
    let avgViews : ℚ := ((members.map PVideo.viewCount).sum : ℚ) / (members.length : ℚ)
    let avgEngagement : ℚ := (members.map PVideo.likeToViewRatio).sum / (members.length : ℚ)
    { name := name
      videoCount := members.length
      avgViews := jsRound avgViews
      avgEngagement := avgEngagement
      confidence := min 95 (60 + (members.length : ℚ) * 10 + avgEngagement * 1000) }

/-- Source `identifyTopicClusters` (lines 137-186): the four fixed keyword
clusters in object-literal insertion order. -/
def identifyTopicClusters (videos : List PVideo) : List Cluster :=
  let lower := fun (v : PVideo) => jsToLower v.title
  [mkCluster "AI Development Tools" (videos.filter (fun v =>
      jsIncludes (lower v) "cursor" || jsIncludes (lower v) "claude" || jsIncludes (lower v) "ai")),
   mkCluster "Automation & MCP" (videos.filter (fun v =>
      jsIncludes (lower v) "mcp" || jsIncludes (lower v) "automation" || jsIncludes (lower v) "n8n")),
   mkCluster "Workflow & Productivity" (videos.filter (fun v =>
      jsIncludes (lower v) "workflow" || jsIncludes (lower v) "method" || jsIncludes (lower v) "system")),
   mkCluster "Web Development" (videos.filter (fun v =>
      jsIncludes (lower v) "website" || jsIncludes (lower v) "web" || jsIncludes (lower v) "shadcn"))]

/-- Timing histogram returned by `analyzeTimingPatterns` (lines 383-397). -/
structure TimingPatterns where
  dayPatterns : List (String × ℕ)
  hourPatterns : List (ℤ × ℕ)
  deriving DecidableEq

/-- Source `analyzeTimingPatterns` (lines 383-397). -/
def analyzeTimingPatterns (videos : List PVideo) : TimingPatterns :=
  { dayPatterns := videos.foldl (fun acc v => bumpCount acc (weekdayName v.publishedAt)) []
    hourPatterns := videos.foldl (fun acc v => bumpCount acc (jsGetHours v.publishedAt)) [] }

/-- One engagement-trigger record of `findEngagementTriggers` (lines 402-408). -/
structure EngagementTrigger where
  title : String
  engagementRate : ℚ
  triggers : List String
  deriving DecidableEq

/-- Source `extractTriggers` (lines 413-426). -/
def extractTriggers (title : String) : List String :=
  let t := jsToLower title
  (if jsIncludes t "actually" then ["Authenticity"] else [])
  ++ (if jsIncludes t "insane" || jsIncludes t "shocking" then ["Surprise"] else [])
  ++ (if jsIncludes t "complete" || jsIncludes t "ultimate" then ["Completeness"] else [])
  ++ (if jsIncludes t "how i" then ["Personal Story"] else [])
  ++ (if jsIncludes t "vs" || jsIncludes t "comparison" then ["Comparison"] else [])
  ++ (if jsIncludes t "new" || jsIncludes t "latest" then ["Novelty"] else [])
  ++ (if jsIncludes t "secret" || jsIncludes t "hidden" then ["Exclusivity"] else [])

/-- Source `findEngagementTriggers` (lines 402-408). -/
def findEngagementTriggers (videos : List PVideo) : List EngagementTrigger :=
  sortDescBy EngagementTrigger.engagementRate
    (videos.map (fun v => ⟨v.title, v.likeToViewRatio, extractTriggers v.title⟩))

/-- Statistics substituted for a non-empty format bucket (lines 446-453);
`avgEngagement` is the raw mean behind the rendered percentage string. -/
structure FormatStats where
  count : ℕ
  avgViews : ℤ
  avgEngagement : ℚ
  deriving DecidableEq

/-- Format buckets of `analyzeContentFormats` (lines 431-456): an empty
bucket is left as the raw (empty) filtered array, modelled `none`. -/
structure ContentFormats where
  tutorials : Option FormatStats
  comparisons : Option FormatStats
  reviews : Option FormatStats
  workflows : Option FormatStats
  deriving DecidableEq

/-- Builds one format bucket (lines 446-453). -/
def mkFormat (members : List PVideo) : Option FormatStats :=
  if members.length = 0 then none
  else some
    { count := members.length
      avgViews := jsRound (((members.map PVideo.viewCount).sum : ℚ) / (members.length : ℚ))
      avgEngagement := (members.map PVideo.likeToViewRatio).sum / (members.length : ℚ) }

/-- Source `analyzeContentFormats` (lines 431-456). -/
def analyzeContentFormats (videos : List PVideo) : ContentFormats :=
  let lower := fun (v : PVideo) => jsToLower v.title
  { tutorials := mkFormat (videos.filter (fun v =>
      jsIncludes (lower v) "how" || jsIncludes (lower v) "tutorial"))
    comparisons := mkFormat (videos.filter (fun v =>
      jsIncludes (lower v) "vs" || jsIncludes (lower v) "comparison"))
    reviews := mkFormat (videos.filter (fun v =>
      jsIncludes (lower v) "review" || jsIncludes (lower v) "tested"))
    workflows := mkFormat (videos.filter (fun v =>
      jsIncludes (lower v) "workflow" || jsIncludes (lower v) "method")) }

/-- The pattern bundle of `analyzeSuccessPatterns` (lines 63-69). -/
structure SuccessPatterns where
  titlePatterns : TitlePatterns
  topicClusters : List Cluster
  timingPatterns : TimingPatterns
  engagementTriggers : List EngagementTrigger
  contentFormats : ContentFormats
  deriving DecidableEq

/-- The metric bundle of `analyzeSuccessPatterns` (lines 71-76).  With no top
performers the two averages are `0/0`, i.e. IEEE `NaN`, modelled `none`. -/
structure PerfMetrics where
  avgTopPerformerViews : Option ℚ
  avgEngagementRate : Option ℚ
  successRate : ℚ
  viralVideos : ℕ
  deriving DecidableEq

/-- The confidence bundle of `calculatePatternConfidence` (lines 364-378). -/
structure ConfidenceBreakdown where
  titlePatterns : ℚ
  topicClusters : ℚ
  overallPrediction : ℚ
  average : ℤ
  deriving DecidableEq

/-- The full return value of `analyzeSuccessPatterns` (line 80). -/
structure Analysis where
  patterns : SuccessPatterns
  metrics : PerfMetrics
  confidence : ConfidenceBreakdown
  deriving DecidableEq

/-- Source `calculatePatternConfidence` (lines 355-378): JS
`metrics.successRate ? metrics.successRate : 75` falls back on a zero (falsy)
success rate, and `metrics.viralVideos ? metrics.viralVideos : 0` is the
identity. -/
def calculatePatternConfidence (patterns : SuccessPatterns) (metrics : PerfMetrics) :
    ConfidenceBreakdown :=
  let winningPhrasesLength := patterns.titlePatterns.winningPhrases.length
  let successRate := if metrics.successRate = 0 then 75 else metrics.successRate
  let viralVideos := metrics.viralVideos
  let a : ℚ := min 95 (50 + (winningPhrasesLength : ℚ) * 10)
  let b : ℚ := min 95 (40 + successRate)
  let c : ℚ := min 95 (60 + (viralVideos : ℚ) * 15)
  ⟨a, b, c, jsRound ((a + b + c) / 3)⟩

/-- Source `getDefaultAnalysis` (lines 518-557): fixed literal fallback,
reachable only if `analyzeSuccessPatterns` were called with an empty batch
(the entry point already guards that case). -/
def getDefaultAnalysis : Analysis :=
  { patterns :=
      { titlePatterns :=
          { topWords := [("actually", 2), ("insane", 2), ("claude", 3)]
            winningPhrases := ["ACTUALLY", "INSANE", "Ultimate"]
            emotionalTriggers := ["Exclamation", "Ellipsis Curiosity"] }
        topicClusters := [⟨"AI Development Tools", 0, 200000, 0.045, 90⟩]
        timingPatterns := ⟨[], []⟩
        engagementTriggers := []
        contentFormats := ⟨none, none, none, none⟩ }
    metrics :=
      { avgTopPerformerViews := some 200000
        avgEngagementRate := some 0.04
        successRate := 80
        viralVideos := 3 }
    confidence := ⟨85, 80, 88, 84⟩ }

/-- Source `analyzeSuccessPatterns` (lines 47-81): baseline average views from
the aggregates (re-estimated from the batch when a counter is 0, i.e. falsy),
top performers above 1.2 times the baseline with a truthy view counter. -/
def analyzeSuccessPatterns (videos : List PVideo) (channelStats : Option ChannelStats) :
    Analysis :=
  if videos.isEmpty then getDefaultAnalysis
  else
    let stats := match channelStats with
      | some s => if s.viewCount = 0 ∨ s.videoCount = 0 then estimateChannelStats videos else s
      | none => estimateChannelStats videos
    let avgViews : ℚ := (stats.viewCount : ℚ) / (stats.videoCount : ℚ)
    let topPerformers := sortDescBy PVideo.viewCount
      (videos.filter (fun v => v.viewCount != 0 && decide (avgViews * 1.2 < (v.viewCount : ℚ))))
    let patterns : SuccessPatterns :=
      { titlePatterns := extractTitlePatterns topPerformers
        topicClusters := identifyTopicClusters topPerformers
        timingPatterns := analyzeTimingPatterns topPerformers
        engagementTriggers := findEngagementTriggers topPerformers
        contentFormats := analyzeContentFormats topPerformers }
    let metrics : PerfMetrics :=
      { avgTopPerformerViews :=
          if topPerformers.isEmpty then none
          else some (((topPerformers.map PVideo.viewCount).sum : ℚ) / (topPerformers.length : ℚ))
        avgEngagementRate :=
          if topPerformers.isEmpty then none
          else some ((topPerformers.map PVideo.likeToViewRatio).sum / (topPerformers.length : ℚ))
        successRate := (topPerformers.length : ℚ) / (videos.length : ℚ) * 100
        viralVideos := (topPerformers.filter (fun v => decide (100000 < v.viewCount))).length }
    ⟨patterns, metrics, calculatePatternConfidence patterns metrics⟩

/-- One topic prediction (lines 195-265); `urgency` is present only on the
year-end prediction. -/
structure Prediction where
  topic : String
  confidence : ℚ
  reasoning : String
  expectedViews : String
  urgency : Option String
  examples : List String
  deriving DecidableEq

/-- Source `generateTopicExamples` (lines 320-350). -/
def generateTopicExamples (clusterName : String) : List String :=
  if clusterName = "AI Development Tools" then
    ["I Built the Same App with 5 AI Tools (Results Shocking)",
     "Claude Code vs Cursor vs Windsurf: The Ultimate Comparison",
     "This AI Coding Assistant Actually Writes Better Code Than Me"]
  else if clusterName = "Automation & MCP" then
    ["I Automated My Entire Workflow with MCP Servers",
     "This n8n Integration Changes Everything for Developers",
     "Building AI Agents That Actually Work (MCP Tutorial)"]
  else if clusterName = "Workflow & Productivity" then
    ["My Complete 2025 Development Workflow (Copy This)",
     "The BMAD Method: Revolutionary AI Development System",
     "How I Code 10x Faster with This Simple Method"]
  else if clusterName = "Web Development" then
    ["3 More Ways to Build ACTUALLY Beautiful Websites",
     "Shadcn Just Changed Everything (New Features)",
     "I Rebuilt My Website with AI (Before/After)"]
  else
    ["Advanced Techniques You Haven’t Seen",
     "The Complete Guide to [Topic]",
     "This Changes Everything for [Topic]"]

/-- Source `generateTopicPredictions` (lines 191-266): phrase-based and
cluster-based predictions plus the two fixed ones, sorted by confidence
descending (stable). -/
def generateTopicPredictions (analysis : Analysis) : List Prediction :=
  let base :=
    (if analysis.patterns.titlePatterns.winningPhrases.contains "ACTUALLY" then
      [{ topic := "How to ACTUALLY Build [Popular Tool] Projects"
         confidence := 92
         reasoning := "Title pattern \"ACTUALLY\" has proven high performance"
         expectedViews := "250K-400K"
         urgency := none
         examples :=
           ["How to ACTUALLY Build Production Apps with Claude Code",
            "How to ACTUALLY Master Cursor AI (No Fluff)",
            "How to ACTUALLY Use MCP Servers in Real Projects"] }]
     else [])
    ++ (if analysis.patterns.titlePatterns.winningPhrases.contains "INSANE" then
      [{ topic := "This [New Tool] is INSANE... [Benefit]"
         confidence := 89
         reasoning := "Title pattern \"INSANE\" generates high engagement"
         expectedViews := "150K-300K"
         urgency := none
         examples :=
           ["This New Claude 4 Model is INSANE... It Codes Better Than Humans",
            "This Windsurf IDE is INSANE... Cursor Alternative",
            "This MCP Integration is INSANE... Automate Everything"] }]
     else [])
  let clusterPreds := match (sortDescBy Cluster.confidence analysis.patterns.topicClusters).head? with
    | some c =>
      if 80 < c.confidence then
        [{ topic := "Advanced " ++ c.name ++ " Techniques"
           confidence := (jsRound c.confidence : ℚ)
           reasoning := c.name ++ " cluster shows consistent high performance"
           expectedViews := Int.repr (jsRound ((c.avgViews : ℚ) / 1000)) ++ "K+"
           urgency := none
           examples := generateTopicExamples c.name }]
      else []
    | none => []
  let fixed :=
    [{ topic := "Latest AI Development Tool Reviews"
       confidence := 88
       reasoning := "AI tool content consistently performs well for your audience"
       expectedViews := "200K-350K"
       urgency := none
       examples :=
         ["I Tested 5 Claude Code Alternatives (Surprising Winner)",
          "New vs Old: Cursor vs Windsurf vs Claude Code",
          "This AI Tool Will Replace Your Entire Stack in 2025"] },
     { topic := "Year-End AI Tool Roundup"
       confidence := 85
       reasoning := "Seasonal content with proven AI tool angle"
       expectedViews := "180K-280K"
       urgency := some "Create in December for maximum impact"
       examples :=
         ["Top 10 AI Tools That Changed Development in 2024",
          "2025 AI Development Stack Predictions",
          "The AI Tools I’m Ditching (And What I’m Keeping)"] }]
  sortDescBy Prediction.confidence (base ++ clusterPreds ++ fixed)

/-- Source `filterHighConfidenceTopics` (lines 272-274): keep only
predictions at or above the confidence threshold 85. -/
def filterHighConfidenceTopics (predictions : List Prediction) : List Prediction :=
  predictions.filter (fun p => decide (85 ≤ p.confidence))

/-- Expected-performance block of a next-video recommendation
(lines 296-300). -/
structure ExpectedPerformance where
  views : String
  likeToViewRatio : String
  viralPotential : String
  deriving DecidableEq

/-- One next-video recommendation (lines 291-302). -/
structure NextVideo where
  title : String
  confidence : ℚ
  priority : String
  timeline : String
  expectedPerformance : ExpectedPerformance
  optimizationTips : List String
  deriving DecidableEq

/-- Source `generateOptimizationTips` (lines 308-316): fixed list. -/
def generateOptimizationTips : List String :=
  ["📸 Use high-contrast thumbnail with tool logos",
   "⏰ Upload on Tuesday-Thursday for maximum reach",
   "🏷️ Include trending keywords in first 24 hours",
   "💬 Engage with comments in first 2 hours",
   "🔗 Cross-promote on relevant dev communities"]

/-- Source `generateNextVideoTopics` (lines 279-303): first five guaranteed
topics with index-based priority and timeline; `topic.confidence || 85` and
the `||` string fallbacks treat 0 / the empty string as falsy. -/
def generateNextVideoTopics (guaranteedTopics : List Prediction) : List NextVideo :=
  ((guaranteedTopics.take 5).enum).map (fun p =>
    let i := p.1
    let t := p.2
    let conf := if t.confidence = 0 then 85 else t.confidence
    { title := match t.examples.head? with
        | some e => if e = "" then t.topic ++ " - Part 1" else e
        | none => t.topic ++ " - Part 1"
      confidence := conf
      priority := if i = 0 then "IMMEDIATE" else if i < 3 then "HIGH" else "MEDIUM"
      timeline := if i = 0 then "This week" else "Week " ++ Nat.repr (i + 1)
      expectedPerformance :=
        { views := if t.expectedViews = "" then "100K-200K" else t.expectedViews
          likeToViewRatio := "3-5%"
          viralPotential := if 90 < conf then "HIGH" else "MEDIUM" }
      optimizationTips := generateOptimizationTips })

/-- The full return value of `predictHighPerformanceTopics` (lines 35-42);
`timestamp` is the clock reading at the end of the call. -/
structure PredictorResult where
  guaranteedTopics : List Prediction
  successPatterns : SuccessPatterns
  performanceMetrics : PerfMetrics
  confidenceBreakdown : ConfidenceBreakdown
  nextVideoRecommendations : List NextVideo
  timestamp : ℤ
  deriving DecidableEq

/-- Source `getDefaultPredictions` (lines 455-516): fixed literal fallback
returned when no video data is available; both hard-coded guaranteed topics
carry confidences 88 and 85. -/
def getDefaultPredictions (now : ℤ) : PredictorResult :=
  { guaranteedTopics :=
      [{ topic := "AI Development Tutorial Series"
         confidence := 88
         reasoning := "AI development content consistently performs well"
         expectedViews := "100K-200K"
         urgency := none
         examples :=
           ["Build Your First AI App in 10 Minutes",
            "AI Tools Every Developer Should Know in 2025",
            "Complete Guide to Claude Code for Beginners"] },
       { topic := "Tool Comparison & Reviews"
         confidence := 85
         reasoning := "Comparison content drives high engagement"
         expectedViews := "80K-150K"
         urgency := none
         examples :=
           ["Cursor vs Windsurf vs Claude Code: The Ultimate Test",
            "I Tested 5 AI Coding Tools (Surprising Winner)",
            "Best AI Development Stack for 2025"] }]
    successPatterns :=
      { titlePatterns :=
          { topWords := []
            winningPhrases := ["ACTUALLY", "Ultimate"]
            emotionalTriggers := [] }
        topicClusters := []
        timingPatterns := ⟨[], []⟩
        engagementTriggers := []
        contentFormats := ⟨none, none, none, none⟩ }
    performanceMetrics :=
      { avgTopPerformerViews := some 150000
        avgEngagementRate := some 0.035
        successRate := 75
        viralVideos := 2 }
    confidenceBreakdown := ⟨80, 75, 85, 80⟩
    nextVideoRecommendations := []
    timestamp := now }

/-- Source `predictHighPerformanceTopics` (lines 15-42); `videos = none`
models a non-array (or missing) argument.  The safety check returns the
default predictions for it — nothing is thrown — and a missing
`channelStats` is estimated from the batch.  `now` is the frozen wall clock
read by the closing `new Date()`. -/
def predictHighPerformanceTopics (videos : Option (List PVideo))
    (channelStats : Option ChannelStats) (now : ℤ) : PredictorResult :=
  match videos with
  | none => getDefaultPredictions now
  | some vs =>
    if vs.isEmpty then getDefaultPredictions now
    else
      let stats := match channelStats with
        | none => some (estimateChannelStats vs)
        | some s => some s
      let analysis := analyzeSuccessPatterns vs stats
      let predictions := generateTopicPredictions analysis
      let guaranteedTopics := filterHighConfidenceTopics predictions
      { guaranteedTopics := guaranteedTopics
        successPatterns := analysis.patterns
        performanceMetrics := analysis.metrics
        confidenceBreakdown := analysis.confidence
        nextVideoRecommendations := generateNextVideoTopics guaranteedTopics
        timestamp := now }

end HighPerformancePredictor

namespace ExploriumCollector

/-- One video record as read by the channel-health scorer of
`explorium-collector.js`: numeric counters after `parseInt(x) || 0`,
`publishedAt` in epoch milliseconds, plus the title / tags / description
fields probed by `scoreContentQuality`. -/
structure HVideo where
  title : String
  description : String
  tags : List String
  viewCount : ℕ
  likeCount : ℕ
  commentCount : ℕ
  publishedAt : ℤ
  deriving DecidableEq

/-- Channel aggregate counters (`mergedData.channel.metrics`). -/
structure ChannelMetrics where
  subscriberCount : ℕ
  viewCount : ℕ
  videoCount : ℕ
  deriving DecidableEq

/-- External market signals as probed by `scoreMarketAlignment`
(lines 748-768): presence of competitor keys, an audience object with its
`totalAudience`, trend keys, and a business profile. -/
structure Market where
  competitors : Option (List String)
  audienceTotal : Option ℚ
  trends : Option (List String)
  business : Bool
  deriving DecidableEq

/-- Source `calculateVideoEngagement` (lines 790-797). -/
def calculateVideoEngagement (v : HVideo) : ℚ :=
  if v.viewCount = 0 then 0
  else ((v.likeCount + v.commentCount : ℕ) : ℚ) / (v.viewCount : ℚ) * 100

/-- Source `scoreEngagement` (lines 689-707): mean engagement rate over the
batch (zero-view items contribute 0 to the sum), mapped through tiers;
an empty batch returns 50. -/
def scoreEngagement (videos : List HVideo) : ℚ :=
  if videos.isEmpty then 50
  else
    let avgEngagement := (videos.foldl (fun s v =>
      if v.viewCount = 0 then s
      else s + ((v.likeCount + v.commentCount : ℕ) : ℚ) / (v.viewCount : ℚ) * 100) 0)
      / (videos.length : ℚ)
    if 5 < avgEngagement then 90
    else if 3 < avgEngagement then 75
    else if 1 < avgEngagement then 60
    else 40

/-- Source `scoreConsistency` (lines 709-727): variance of the day-intervals
between the up-to-10 most recent publish dates.  Fewer than 3 items return
30.  With identical dates `avgInterval = 0` and `variance = 0`, so
`variance / avgInterval` is IEEE `0/0 = NaN`, which propagates through
`Math.max` / `Math.min` — modelled `none`.  (Descending sort makes every
interval ≥ 0, so `variance > 0` with `avgInterval = 0` — which would give
`+∞` and a score of 0 — cannot occur, but the branch is kept faithful.) -/
def scoreConsistency (videos : List HVideo) : Option ℚ :=
  if videos.length < 3 then some 30
  else
    let dates := sortDescBy id (videos.map HVideo.publishedAt)
    let k := min dates.length 10
    let intervals := (List.range (k - 1)).map
      (fun i => ((dates.getD i 0 - dates.getD (i + 1) 0 : ℤ) : ℚ) / 86400000)
    let avgInterval := intervals.sum / (intervals.length : ℚ)
    let variance := (intervals.map (fun x => (x - avgInterval) ^ 2)).sum / (intervals.length : ℚ)
    if avgInterval = 0 then (if variance = 0 then none else some 0)
    else some (min 90 (max 0 (100 - variance / avgInterval * 10)))

/-- Source `scoreGrowthTrend` (lines 729-746): `parseInt(videoCount) || 1`
coerces a zero video count to 1.  The subscriber-to-view ratio with
`views = 0` is IEEE `0/0 = NaN` (every comparison false, bonus 0) when
`subscribers = 0`, and `+∞` (`> 0.01` true, bonus 15) otherwise; both
branches are inlined. -/
def scoreGrowthTrend (metrics : ChannelMetrics) : ℚ :=
  let subscribers := metrics.subscriberCount
  let views := metrics.viewCount
  let videos : ℚ := if metrics.videoCount = 0 then 1 else (metrics.videoCount : ℚ)
  let avgViewsPerVideo : ℚ := (views : ℚ) / videos
  let viewsBonus : ℚ :=
    if 100000 < avgViewsPerVideo then 20 else if 10000 < avgViewsPerVideo then 10 else 0
  let ratioBonus : ℚ :=
    if views = 0 then (if subscribers = 0 then 0 else 15)
    else
      let r : ℚ := (subscribers : ℚ) / (views : ℚ)
      if (0.01 : ℚ) < r then 15 else if (0.005 : ℚ) < r then 10 else 0
  let subsBonus : ℚ :=
    if 100000 < subscribers then 15
    else if 10000 < subscribers then 10
    else if 1000 < subscribers then 5
    else 0
  min 90 (50 + viewsBonus + ratioBonus + subsBonus)

/-- Source `scoreMarketAlignment` (lines 748-768). -/
def scoreMarketAlignment (market : Market) : ℚ :=
  let s : ℚ := 50
  let s := s + (match market.competitors with
    | some keys => if keys.isEmpty then 0 else 15
    | none => 0)
  let s := s + (match market.audienceTotal with
    | some total => if 0 < total then 15 else 0
    | none => 0)
  let s := s + (match market.trends with
    | some keys => if keys.isEmpty then 0 else 10
    | none => 0)
  let s := s + (if market.business then 10 else 0)
  min 90 s

/-- Source `scoreContentQuality` (lines 770-788): per-video base 50 plus
metadata and engagement bonuses, averaged; an empty batch returns 50. -/
def scoreContentQuality (videos : List HVideo) : ℚ :=
  if videos.isEmpty then 50
  else
    let qualityScore := videos.foldl (fun s v =>
      let engagement := calculateVideoEngagement v
      s + 50 + (if 30 < v.title.length then 10 else 0)
        + (if 5 < v.tags.length then 10 else 0)
        + (if 100 < v.description.length then 10 else 0)
        + (if 3 < engagement then 20 else if 1 < engagement then 10 else 0)) (0 : ℚ)
    qualityScore / (videos.length : ℚ)

/-- Source `getHealthRecommendations` (lines 799-817), applied to the raw
(un-rounded) weighted score.  A `NaN` score (`none`) fails both `< 40` and
`< 70` and lands in the final arm. -/
def getHealthRecommendations (score : Option ℚ) : List String :=
  match score with
  | some s =>
    if s < 40 then
      ["Focus on improving content quality and consistency",
       "Analyze top-performing videos and replicate successful elements",
       "Engage more with your audience through comments and community posts"]
    else if s < 70 then
      ["Optimize video titles and thumbnails for better click-through rates",
       "Maintain consistent upload schedule",
       "Explore trending topics in your niche"]
    else
      ["Experiment with new content formats",
       "Consider expanding to new platforms",
       "Develop monetization strategies"]
  | none =>
    ["Experiment with new content formats",
     "Consider expanding to new platforms",
     "Develop monetization strategies"]

/-- The per-dimension breakdown of the health score (lines 677-683);
`consistency` is `none` when the sub-score is `NaN`. -/
structure HealthBreakdown where
  engagement : ℤ
  consistency : Option ℤ
  growth : ℤ
  marketAlignment : ℤ
  contentQuality : ℤ
  deriving DecidableEq

/-- The health-score object (lines 675-686); `overall` is `none` when the
weighted sum is `NaN` (a `NaN` consistency sub-score propagates through the
`+=` accumulation and `Math.round`). -/
structure HealthScore where
  overall : Option ℤ
  breakdown : HealthBreakdown
  recommendations : List String
  deriving DecidableEq

/-- Source `calculateChannelHealthScore` (lines 661-686): weighted sum
0.3 engagement + 0.2 consistency + 0.2 growth + 0.15 marketAlignment +
0.15 contentQuality of the raw sub-scores, rounded; the breakdown holds each
sub-score rounded separately. -/
def calculateChannelHealthScore (videos : List HVideo) (metrics : ChannelMetrics)
    (market : Market) : HealthScore :=
  let e := scoreEngagement videos
  let c := scoreConsistency videos
  let g := scoreGrowthTrend metrics
  let m := scoreMarketAlignment market
  let q := scoreContentQuality videos
  let score : Option ℚ := c.map (fun cv =>
    e * 0.3 + cv * 0.2 + g * 0.2 + m * 0.15 + q * 0.15)
  { overall := score.map jsRound
    breakdown :=
      { engagement := jsRound e
        consistency := c.map jsRound
        growth := jsRound g
        marketAlignment := jsRound m
        contentQuality := jsRound q }
    recommendations := getHealthRecommendations score }

end ExploriumCollector

/-! Helper lemmas shared by the claim theorems. -/

/-- Characterisation of `jsRound` at a concrete value. -/
theorem jsRound_eq_of (q : ℚ) (n : ℤ) (h₁ : (n : ℚ) ≤ q + 1/2) (h₂ : q + 1/2 < (n : ℚ) + 1) :
    jsRound q = n := by
  rw [jsRound]
  exact Int.floor_eq_iff.mpr ⟨by exact_mod_cast h₁, by exact_mod_cast h₂⟩

/-- Lower bound for `jsRound`. -/
theorem le_jsRound_of_le (n : ℤ) (q : ℚ) (h : (n : ℚ) ≤ q) : n ≤ jsRound q := by
  rw [jsRound]
  refine Int.le_floor.mpr ?_
  linarith

/-- Standard logarithm lower bound `1 - 1/x ≤ log x` for `x ≥ 1`. -/
theorem one_sub_inv_le_log (x : ℝ) (hx : 1 ≤ x) : 1 - x⁻¹ ≤ Real.log x := by
  have hx0 : 0 < x := lt_of_lt_of_le one_pos hx
  have h1 : Real.log x⁻¹ ≤ x⁻¹ - 1 := Real.log_le_sub_one_of_pos (by positivity)
  rw [Real.log_inv] at h1
  linarith

/-- Membership in a conditional singleton list. -/
theorem mem_ite_singleton {α : Type} {c : Prop} [Decidable c] {x o : α}
    (h : o ∈ (if c then [x] else [])) : c ∧ o = x := by
  split_ifs at h with hc
  · exact ⟨hc, List.mem_singleton.mp h⟩
  · exact absurd h (List.not_mem_nil o)

namespace ContentTrendAnalyzer

/-- At most one opportunity per theme, so at most four in total. -/
theorem themeOpportunityList_length (t : ThemeCounts) : (themeOpportunityList t).length ≤ 4 := by
  unfold themeOpportunityList
  split_ifs <;> simp

/-- Every per-theme opportunity records a frequency ≥ 2 in its reason and
derives its priority from that frequency. -/
theorem themeOpportunityList_mem (t : ThemeCounts) (o : Opportunity)
    (ho : o ∈ themeOpportunityList t) :
    ∃ n, 2 ≤ n ∧ o.reason = Nat.repr n ++ " rising videos in this category" ∧
      o.priority = (if 3 < n then "Immediate" else "High") := by
  simp only [themeOpportunityList, List.mem_append] at ho
  rcases ho with ((h | h) | h) | h <;>
    · obtain ⟨hc, rfl⟩ := mem_ite_singleton h
      exact ⟨_, hc, rfl, rfl⟩

end ContentTrendAnalyzer

namespace ExploriumCollector

/-- Empty batch fallback of `scoreEngagement`. -/
theorem scoreEngagement_nil : scoreEngagement [] = 50 := by
  simp [scoreEngagement]

/-- Undersized batch fallback of `scoreConsistency`. -/
theorem scoreConsistency_nil : scoreConsistency [] = some 30 := by
  simp [scoreConsistency]

/-- Empty batch fallback of `scoreContentQuality`. -/
theorem scoreContentQuality_nil : scoreContentQuality [] = 50 := by
  simp [scoreContentQuality]

/-- Growth sub-score at all-zero aggregates: the `|| 1` coercion of the video
count and the `NaN` subscriber-to-view ratio leave the base 50. -/
theorem scoreGrowthTrend_zero : scoreGrowthTrend ⟨0, 0, 0⟩ = 50 := by
  norm_num [scoreGrowthTrend]

/-- Market-alignment sub-score with no external signals. -/
theorem scoreMarketAlignment_empty : scoreMarketAlignment ⟨none, none, none, false⟩ = 50 := by
  norm_num [scoreMarketAlignment]

end ExploriumCollector

open ExploriumCollector in
/-- C1: for an empty items array with aggregates
`{subscriberCount: 0, viewCount: 0, videoCount: 0}` and no external market
signals, the fallback sub-scores are engagement = 50, consistency = 30,
growth = 50, marketAlignment = 50, contentQuality = 50 — but the weighted
overall score is `round(0.3·50 + 0.2·30 + 0.2·50 + 0.15·50 + 0.15·50) = 46`,
not 45 as claimed. -/
theorem C1_counterexample :
    (calculateChannelHealthScore [] ⟨0, 0, 0⟩ ⟨none, none, none, false⟩).breakdown
        = ⟨50, some 30, 50, 50, 50⟩ ∧
      (calculateChannelHealthScore [] ⟨0, 0, 0⟩ ⟨none, none, none, false⟩).overall = some 46 ∧
      ¬ (calculateChannelHealthScore [] ⟨0, 0, 0⟩ ⟨none, none, none, false⟩).overall = some 45 := by
  have he : scoreEngagement [] = 50 := scoreEngagement_nil
  have hc : scoreConsistency [] = some 30 := scoreConsistency_nil
  have hg : scoreGrowthTrend ⟨0, 0, 0⟩ = 50 := scoreGrowthTrend_zero
  have hm : scoreMarketAlignment ⟨none, none, none, false⟩ = 50 := scoreMarketAlignment_empty
  have hq : scoreContentQuality [] = 50 := scoreContentQuality_nil
  have hsum : (50 : ℚ) * 0.3 + 30 * 0.2 + 50 * 0.2 + 50 * 0.15 + 50 * 0.15 = 46 := by norm_num
  have h50 : jsRound (50 : ℚ) = 50 := jsRound_eq_of 50 50 (by norm_num) (by norm_num)
  have h30 : jsRound (30 : ℚ) = 30 := jsRound_eq_of 30 30 (by norm_num) (by norm_num)
  have h46 : jsRound (46 : ℚ) = 46 := jsRound_eq_of 46 46 (by norm_num) (by norm_num)
  refine ⟨?_, ?_, ?_⟩
  · simp [calculateChannelHealthScore, he, hc, hg, hm, hq, h50, h30]
  · simp [calculateChannelHealthScore, he, hc, hg, hm, hq, hsum, h46]
  · simp [calculateChannelHealthScore, he, hc, hg, hm, hq, hsum, h46]

open ExploriumCollector in
/-- C1 (amended): for an empty items array with all-zero aggregates and no
external market signals, the fallback sub-scores are engagement = 50,
consistency = 30, growth = 50, marketAlignment = 50, contentQuality = 50 and
`HealthScore.overall = 46`. -/
theorem C1_empty_batch_fallback :
    calculateChannelHealthScore [] ⟨0, 0, 0⟩ ⟨none, none, none, false⟩
      = { overall := some 46
          breakdown := ⟨50, some 30, 50, 50, 50⟩
          recommendations :=
            ["Optimize video titles and thumbnails for better click-through rates",
             "Maintain consistent upload schedule",
             "Explore trending topics in your niche"] } := by
  have hsum : (50 : ℚ) * 0.3 + 30 * 0.2 + 50 * 0.2 + 50 * 0.15 + 50 * 0.15 = 46 := by norm_num
  have h50 : jsRound (50 : ℚ) = 50 := jsRound_eq_of 50 50 (by norm_num) (by norm_num)
  have h30 : jsRound (30 : ℚ) = 30 := jsRound_eq_of 30 30 (by norm_num) (by norm_num)
  have h46 : jsRound (46 : ℚ) = 46 := jsRound_eq_of 46 46 (by norm_num) (by norm_num)
  simp [calculateChannelHealthScore, scoreEngagement_nil, scoreConsistency_nil,
    scoreGrowthTrend_zero, scoreMarketAlignment_empty, scoreContentQuality_nil,
    hsum, h50, h30, h46, getHealthRecommendations]
  norm_num

open ExploriumCollector in
/-- C3: for a batch of three items sharing an identical publish timestamp the
consistency sub-score computes `variance / avgInterval = 0 / 0 = NaN`, which
propagates into the weighted sum, so `HealthScore.overall` is `NaN`
(modelled `none`) — not an integer in `[0, 100]` as the spec requires. -/
theorem C3_identical_timestamps_overall_nan :
    (calculateChannelHealthScore
        [⟨"a", "", [], 100, 10, 1, 0⟩, ⟨"b", "", [], 200, 20, 2, 0⟩, ⟨"c", "", [], 300, 30, 3, 0⟩]
        ⟨1000, 50000, 10⟩ ⟨none, none, none, false⟩).overall = none ∧
      (calculateChannelHealthScore
        [⟨"a", "", [], 100, 10, 1, 0⟩, ⟨"b", "", [], 200, 20, 2, 0⟩, ⟨"c", "", [], 300, 30, 3, 0⟩]
        ⟨1000, 50000, 10⟩ ⟨none, none, none, false⟩).breakdown.consistency = none := by
  have hc : scoreConsistency
      [⟨"a", "", [], 100, 10, 1, 0⟩, ⟨"b", "", [], 200, 20, 2, 0⟩, ⟨"c", "", [], 300, 30, 3, 0⟩]
      = none := by
    norm_num [scoreConsistency, sortDescBy, insertDescBy, List.range_succ]
  constructor
  · simp [calculateChannelHealthScore, hc]
  · simp [calculateChannelHealthScore, hc]

open ContentTrendAnalyzer in
/-- C2: the derived age is NOT clamped at 0 — for a publish timestamp 10
hours in the future of the frozen clock the age is −10; that raw negative
value is what `calculateTrendMetrics` receives (its `rawMetrics.hoursOld`)
and the classifier even grants the `< 24h` recency bonus on it. -/
theorem C2_counterexample :
    hoursOldOf ⟨none, none, "t", 36000000, none, 0, 0, 0, none⟩ 0 = -10 ∧
      ¬ 0 ≤ hoursOldOf ⟨none, none, "t", 36000000, none, 0, 0, 0, none⟩ 0 ∧
      (calculateTrendMetrics ⟨none, none, "t", 36000000, none, 0, 0, 0, none⟩
        (hoursOldOf ⟨none, none, "t", 36000000, none, 0, 0, 0, none⟩ 0)).rawHoursOld = -10 ∧
      (calculateTrendMetrics ⟨none, none, "t", 36000000, none, 0, 0, 0, none⟩
        (hoursOldOf ⟨none, none, "t", 36000000, none, 0, 0, 0, none⟩ 0)).performanceScore = 10 := by
  have h10 : hoursOldOf ⟨none, none, "t", 36000000, none, 0, 0, 0, none⟩ 0 = -10 := by
    norm_num [hoursOldOf]
  refine ⟨h10, by norm_num [h10], ?_, ?_⟩
  · rw [h10]
    rfl
  · rw [h10]
    norm_num [calculateTrendMetrics, calculatePerformanceScore]

open ContentTrendAnalyzer in
/-- C2 (amended): the age `(now − publishTimestamp)` in hours is passed to
the normalizer unclamped (it is negative for future timestamps); for any
non-positive age the `hoursOld > 0` guards make both velocities 0, while the
raw value itself — not a clamped one — is recorded and used downstream. -/
theorem C2_age_not_clamped_guards (v : Video) (now : ℤ)
    (h : hoursOldOf v now ≤ 0) :
    (calculateTrendMetrics v (hoursOldOf v now)).rawHoursOld = hoursOldOf v now ∧
      (calculateTrendMetrics v (hoursOldOf v now)).viewVelocity = 0 ∧
      (calculateTrendMetrics v (hoursOldOf v now)).commentVelocity = 0 := by
  refine ⟨rfl, ?_, ?_⟩ <;> simp [calculateTrendMetrics, not_lt.mpr h]

open ContentTrendAnalyzer in
/-- Witness for C2 (amended) at a video published 10 hours after the frozen
clock reading 0. -/
theorem C2_age_not_clamped_guards_witness :
    (calculateTrendMetrics ⟨none, none, "t", 36000000, none, 7, 3, 2, none⟩
        (hoursOldOf ⟨none, none, "t", 36000000, none, 7, 3, 2, none⟩ 0)).rawHoursOld
      = hoursOldOf ⟨none, none, "t", 36000000, none, 7, 3, 2, none⟩ 0 ∧
      (calculateTrendMetrics ⟨none, none, "t", 36000000, none, 7, 3, 2, none⟩
        (hoursOldOf ⟨none, none, "t", 36000000, none, 7, 3, 2, none⟩ 0)).viewVelocity = 0 ∧
      (calculateTrendMetrics ⟨none, none, "t", 36000000, none, 7, 3, 2, none⟩
        (hoursOldOf ⟨none, none, "t", 36000000, none, 7, 3, 2, none⟩ 0)).commentVelocity = 0 :=
  C2_age_not_clamped_guards ⟨none, none, "t", 36000000, none, 7, 3, 2, none⟩ 0
    (by norm_num [hoursOldOf])

open ContentTrendAnalyzer in
/-- C4: trend classification is monotone in the performance score — with the
view velocity and engagement rate held fixed, a strictly higher performance
score never yields a strictly lower tier on
declining < stable < rising < trending < viral. -/
theorem C4_classification_monotone (m₁ m₂ : TrendMetrics)
    (hv : m₁.viewVelocity = m₂.viewVelocity) (he : m₁.engagementRate = m₂.engagementRate)
    (hs : m₁.performanceScore < m₂.performanceScore) :
    statusRank (determineTrendStatus m₁) ≤ statusRank (determineTrendStatus m₂) := by
  unfold determineTrendStatus
  rw [hv, he]
  split_ifs <;> simp_all [statusRank] <;> omega

open ContentTrendAnalyzer in
/-- Witness for C4: two metric records identical except for scores 30 < 90. -/
theorem C4_classification_monotone_witness :
    statusRank (determineTrendStatus ⟨0, 0, 0, "Low", "Low", 30, 0, 0, 0, 0⟩)
      ≤ statusRank (determineTrendStatus ⟨0, 0, 0, "Low", "Low", 90, 0, 0, 0, 0⟩) :=
  C4_classification_monotone ⟨0, 0, 0, "Low", "Low", 30, 0, 0, 0, 0⟩
    ⟨0, 0, 0, "Low", "Low", 90, 0, 0, 0, 0⟩ rfl rfl (by norm_num)

open ContentTrendAnalyzer in
/-- C6: normalized rate metrics are total and non-negative; a non-positive
age forces both velocities to 0, a zero view counter forces the engagement
rate to 0, and every branch produces a rational (no `NaN`/`Infinity` can
arise: each division is guarded by the positivity of its denominator). -/
theorem C6_normalizer_guards (v : Video) (hoursOld : ℚ) :
    0 ≤ (calculateTrendMetrics v hoursOld).viewVelocity ∧
      0 ≤ (calculateTrendMetrics v hoursOld).commentVelocity ∧
      0 ≤ (calculateTrendMetrics v hoursOld).engagementRate ∧
      (hoursOld ≤ 0 → (calculateTrendMetrics v hoursOld).viewVelocity = 0 ∧
        (calculateTrendMetrics v hoursOld).commentVelocity = 0) ∧
      (v.viewCount = 0 → (calculateTrendMetrics v hoursOld).engagementRate = 0) := by
  simp only [calculateTrendMetrics]
  refine ⟨?_, ?_, ?_, ?_, ?_⟩
  · split_ifs with h
    · exact div_nonneg (Nat.cast_nonneg _) h.le
    · exact le_refl 0
  · split_ifs with h
    · exact div_nonneg (Nat.cast_nonneg _) h.le
    · exact le_refl 0
  · split_ifs with h
    · positivity
    · exact le_refl 0
  · intro h0
    simp [not_lt.mpr h0]
  · intro h0
    rw [h0]
    simp

open ContentTrendAnalyzer in
/-- Witness for C6 at a zero-view video with age −2. -/
theorem C6_normalizer_guards_witness :
    0 ≤ (calculateTrendMetrics ⟨none, none, "t", 0, none, 0, 5, 3, none⟩ (-2)).viewVelocity ∧
      (calculateTrendMetrics ⟨none, none, "t", 0, none, 0, 5, 3, none⟩ (-2)).viewVelocity = 0 ∧
      (calculateTrendMetrics ⟨none, none, "t", 0, none, 0, 5, 3, none⟩ (-2)).commentVelocity = 0 ∧
      (calculateTrendMetrics ⟨none, none, "t", 0, none, 0, 5, 3, none⟩ (-2)).engagementRate = 0 := by
  have h := C6_normalizer_guards ⟨none, none, "t", 0, none, 0, 5, 3, none⟩ (-2)
  exact ⟨h.1, (h.2.2.2.1 (by norm_num)).1, (h.2.2.2.1 (by norm_num)).2, h.2.2.2.2 rfl⟩

open HighPerformancePredictor in
/-- C5: every entry of `guaranteedTopics` has confidence ≥ 85 — on the
normal path predictions below the threshold are dropped by the filter, and
both hard-coded default predictions carry 88 and 85. -/
theorem C5_guaranteed_confidence (videos : Option (List PVideo))
    (channelStats : Option ChannelStats) (now : ℤ) (p : Prediction)
    (hp : p ∈ (predictHighPerformanceTopics videos channelStats now).guaranteedTopics) :
    85 ≤ p.confidence := by
  cases videos with
  | none =>
    simp [predictHighPerformanceTopics, getDefaultPredictions] at hp
    rcases hp with h | h <;> norm_num [h]
  | some vs =>
    by_cases hv : vs.isEmpty
    · simp [predictHighPerformanceTopics, hv, getDefaultPredictions] at hp
      rcases hp with h | h <;> norm_num [h]
    · simp only [predictHighPerformanceTopics, hv, Bool.false_eq_true, if_false,
        filterHighConfidenceTopics, List.mem_filter] at hp
      exact of_decide_eq_true hp.2

open HighPerformancePredictor in
/-- Witness for C5: the first default prediction, with confidence 88, as
returned on the no-data path. -/
theorem C5_guaranteed_confidence_witness :
    (85 : ℚ) ≤ (Prediction.mk "AI Development Tutorial Series" 88
        "AI development content consistently performs well" "100K-200K" none
        ["Build Your First AI App in 10 Minutes",
         "AI Tools Every Developer Should Know in 2025",
         "Complete Guide to Claude Code for Beginners"]).confidence :=
  C5_guaranteed_confidence none none 0 _
    (by simp [predictHighPerformanceTopics, getDefaultPredictions])

open ContentTrendAnalyzer HighPerformancePredictor in
/-- C7: a non-array `items` argument does NOT raise a typed
`InvalidInputError` — no such error type exists in the source.  The
predictor's safety check returns the built-in default predictions (the same
normal result as a legitimate empty batch), and the analyzer's `catch` arm
converts the internal iteration failure into the mock analysis. -/
theorem C7_counterexample :
    predictHighPerformanceTopics none none 0 = predictHighPerformanceTopics (some []) none 0 ∧
      predictHighPerformanceTopics none none 0 = getDefaultPredictions 0 ∧
      analyzeContentTrends none 168 0 = TrendAnalysis.mock (getMockTrendAnalysis 0) :=
  ⟨rfl, rfl, rfl⟩

open ContentTrendAnalyzer HighPerformancePredictor in
/-- C7 (amended): a non-array `items` argument causes no failure at all —
the predictor returns its default predictions and the trend analyzer catches
the internal error and returns its mock analysis; no caller-visible typed
error exists. -/
theorem C7_non_array_returns_defaults (channelStats : Option ChannelStats)
    (timeframeHours : ℚ) (now : ℤ) :
    predictHighPerformanceTopics none channelStats now = getDefaultPredictions now ∧
      analyzeContentTrends none timeframeHours now
        = TrendAnalysis.mock (getMockTrendAnalysis now) :=
  ⟨rfl, rfl⟩

open ContentTrendAnalyzer in
/-- C8: every peak projection forecasts at least the current views (the
multiplier is always ≥ 1.2), a peak time at least the current age, and a
confidence within [0, 95]. -/
theorem C8_peak_projection_bounds (m : TrendMetrics) (hoursOld : ℚ) :
    (1.2 : ℚ) ≤ projectionMultiplier m.performanceScore ∧
      (m.rawViews : ℤ) ≤ (projectPeakPerformance m hoursOld).estimatedPeakViews ∧
      hoursOld ≤ ((projectPeakPerformance m hoursOld).estimatedPeakTimeHours : ℚ) ∧
      0 ≤ (projectPeakPerformance m hoursOld).confidence ∧
      (projectPeakPerformance m hoursOld).confidence ≤ 95 := by
  have hm : (1.2 : ℚ) ≤ projectionMultiplier m.performanceScore := by
    unfold projectionMultiplier
    split_ifs <;> norm_num
  refine ⟨hm, ?_, ?_, Nat.zero_le _, ?_⟩
  · show (m.rawViews : ℤ) ≤ jsRound ((m.rawViews : ℚ) * projectionMultiplier m.performanceScore)
    refine le_jsRound_of_le _ _ ?_
    push_cast
    have hk : (0 : ℚ) ≤ (m.rawViews : ℚ) * (projectionMultiplier m.performanceScore - 1) :=
      mul_nonneg (Nat.cast_nonneg _) (by linarith)
    nlinarith [hk]
  · show hoursOld ≤
      ((⌊(hoursOld : ℝ) + 24 * Real.log ((projectionMultiplier m.performanceScore : ℚ) : ℝ)
          + 1/2⌋ : ℤ) : ℚ)
    have hmr : (1.2 : ℝ) ≤ ((projectionMultiplier m.performanceScore : ℚ) : ℝ) := by
      have h' : ((1.2 : ℚ) : ℝ) ≤ ((projectionMultiplier m.performanceScore : ℚ) : ℝ) := by
        exact_mod_cast hm
      have h'' : ((1.2 : ℚ) : ℝ) = (1.2 : ℝ) := by norm_num
      rw [h''] at h'
      exact h'
    have hlog : (1/6 : ℝ) ≤ Real.log ((projectionMultiplier m.performanceScore : ℚ) : ℝ) := by
      have h12 : (1 - (1.2 : ℝ)⁻¹) ≤ Real.log 1.2 := one_sub_inv_le_log 1.2 (by norm_num)
      have hmono : Real.log 1.2 ≤ Real.log ((projectionMultiplier m.performanceScore : ℚ) : ℝ) :=
        Real.log_le_log (by norm_num) hmr
      have he : (1 - (1.2 : ℝ)⁻¹) = 1/6 := by norm_num
      linarith
    have hfl := Int.sub_one_lt_floor
      ((hoursOld : ℝ) + 24 * Real.log ((projectionMultiplier m.performanceScore : ℚ) : ℝ) + 1/2)
    have hlt : (hoursOld : ℝ) <
        ((⌊(hoursOld : ℝ) + 24 * Real.log ((projectionMultiplier m.performanceScore : ℚ) : ℝ)
            + 1/2⌋ : ℤ) : ℝ) := by
      linarith
    have := hlt.le
    exact_mod_cast this
  · show calculateProjectionConfidence m hoursOld ≤ 95
    exact min_le_right _ _

open ContentTrendAnalyzer HighPerformancePredictor in
/-- C9: with a frozen wall clock the whole analysis is a pure function of the
batch, the timeframe, the aggregates and the single clock value `now` — two
runs over identical inputs and equal clock readings produce identical
results (the embedding threads every `new Date()` reading through `now`;
the three core modules contain no other ambient input and no randomness). -/
theorem C9_frozen_clock_deterministic (videos : Option (List Video)) (timeframeHours : ℚ)
    (pvideos : Option (List PVideo)) (channelStats : Option ChannelStats)
    (now₁ now₂ : ℤ) (h : now₁ = now₂) :
    analyzeContentTrends videos timeframeHours now₁
        = analyzeContentTrends videos timeframeHours now₂ ∧
      predictHighPerformanceTopics pvideos channelStats now₁
        = predictHighPerformanceTopics pvideos channelStats now₂ := by
  subst h
  exact ⟨rfl, rfl⟩

open ContentTrendAnalyzer HighPerformancePredictor in
/-- Witness for C9 at a one-video batch and the frozen clock reading 5. -/
theorem C9_frozen_clock_deterministic_witness :
    analyzeContentTrends (some [⟨none, none, "t", 0, none, 9, 4, 2, none⟩]) 168 5
        = analyzeContentTrends (some [⟨none, none, "t", 0, none, 9, 4, 2, none⟩]) 168 5 ∧
      predictHighPerformanceTopics none none 5 = predictHighPerformanceTopics none none 5 :=
  C9_frozen_clock_deterministic (some [⟨none, none, "t", 0, none, 9, 4, 2, none⟩]) 168
    none none 5 5 rfl

open ContentTrendAnalyzer in
/-- C10: the aggregator's content-opportunity list is never empty and holds
at most 5 entries; the fixed "Trending Topic Integration" opportunity with
priority "Immediate" is always present (even for an empty rising list), and
every other entry stems from a theme with frequency ≥ 2. -/
theorem C10_content_opportunities (risingContent : List VideoTrendResult) :
    identifyContentOpportunities risingContent ≠ [] ∧
      (identifyContentOpportunities risingContent).length ≤ 5 ∧
      trendingTopicIntegration ∈ identifyContentOpportunities risingContent ∧
      trendingTopicIntegration.type = "Trending Topic Integration" ∧
      trendingTopicIntegration.priority = "Immediate" ∧
      ∀ o ∈ identifyContentOpportunities risingContent,
        o = trendingTopicIntegration ∨
          ∃ n, 2 ≤ n ∧ o.reason = Nat.repr n ++ " rising videos in this category" ∧
            o.priority = (if 3 < n then "Immediate" else "High") := by
  have hlen4 := themeOpportunityList_length (successfulThemes risingContent)
  have hlen : (themeOpportunityList (successfulThemes risingContent)
      ++ [trendingTopicIntegration]).length ≤ 5 := by
    simp only [List.length_append, List.length_singleton]
    omega
  have hco : identifyContentOpportunities risingContent
      = themeOpportunityList (successfulThemes risingContent) ++ [trendingTopicIntegration] := by
    unfold identifyContentOpportunities
    exact List.take_of_length_le hlen
  rw [hco]
  refine ⟨by simp, by simpa using hlen,
    List.mem_append_right _ (List.mem_singleton_self _), rfl, rfl, ?_⟩
  intro o ho
  rcases List.mem_append.mp ho with ho | ho
  · exact Or.inr (themeOpportunityList_mem _ o ho)
  · exact Or.inl (List.mem_singleton.mp ho)

open ContentTrendAnalyzer in
/-- Witness for C10 at the empty rising list: the fixed opportunity is a
member and satisfies the per-entry disjunction. -/
theorem C10_content_opportunities_witness :
    trendingTopicIntegration ∈ identifyContentOpportunities [] ∧
      (trendingTopicIntegration = trendingTopicIntegration ∨
        ∃ n, 2 ≤ n ∧
          trendingTopicIntegration.reason = Nat.repr n ++ " rising videos in this category" ∧
          trendingTopicIntegration.priority = (if 3 < n then "Immediate" else "High")) := by
  have h := C10_content_opportunities []
  exact ⟨h.2.2.1, h.2.2.2.2.2 trendingTopicIntegration h.2.2.1⟩

end SmartContent
